import Mathlib

/-!
Shallow embedding of `src/implementations/tutorial_vqe_parallel.py`.

The script is a linear PennyLane tutorial: it builds a table of atomic
separations and geometry files, generates one qubit Hamiltonian per entry
(via the external `qchem.generate_hamiltonian`), instantiates a fixed pool
of fifteen simulated devices, loads precomputed rotation parameters, wraps
each Hamiltonian in a `VQECost` object, and evaluates the potential energy
surface twice (sequentially and in parallel) before plotting the result.

External library services (Hamiltonian generation, QNode evaluation, the
contents of `RY_params.npy`, and wall-clock time) are modelled as
parameters: the Hamiltonian type `Ham`, a generator `gen`, an evaluation
oracle `evalQNC`, a parameter table `params`, and explicit clock readings.
Everything the script itself does is embedded concretely.
-/

namespace VQEParallel

/-- A simulated device, as created by `qml.device("forest.qvm", device=...)`
(source line 111-112). -/
structure Device where
  kind : String
  device : String
  deriving DecidableEq

/-- Quantum gates appearing in the ansatz circuit (source lines 121-126). -/
inductive Gate where
  | BasisState (bits : List Nat) (wires : List Nat)
  | RY (param : ℚ) (wire : Nat)
  | CNOT (wires : List Nat)
  deriving DecidableEq

/-- The state-preparation circuit (source lines 121-126).  It has a single
free parameter, the angle of the Y rotation on wire 2. -/
def circuit (param : ℚ) : List Gate :=
  [ Gate.BasisState [1, 1, 0, 0] [0, 1, 2, 3]
  , Gate.RY param 2
  , Gate.CNOT [2, 3]
  , Gate.CNOT [2, 0]
  , Gate.CNOT [3, 1] ]

/-- The `data` dictionary (source lines 52-63): atomic separations in
ångström paired with the corresponding geometry files.  Python dicts keep
insertion order, so an association list is a faithful model. -/
def data : List (ℚ × String) :=
  [ (mkRat 3 10, "vqe_parallel/h2_0.30.xyz")
  , (mkRat 5 10, "vqe_parallel/h2_0.50.xyz")
  , (mkRat 7 10, "vqe_parallel/h2_0.70.xyz")
  , (mkRat 9 10, "vqe_parallel/h2_0.90.xyz")
  , (mkRat 11 10, "vqe_parallel/h2_1.10.xyz")
  , (mkRat 13 10, "vqe_parallel/h2_1.30.xyz")
  , (mkRat 15 10, "vqe_parallel/h2_1.50.xyz")
  , (mkRat 17 10, "vqe_parallel/h2_1.70.xyz")
  , (mkRat 19 10, "vqe_parallel/h2_1.90.xyz")
  , (mkRat 21 10, "vqe_parallel/h2_2.10.xyz") ]

/-- The eight `Aspen-4-4Q-E` devices (source line 111). -/
def devs_4 : List Device := List.replicate 8 ⟨"forest.qvm", "Aspen-4-4Q-E"⟩

/-- The seven `Aspen-7-4Q-C` devices (source line 112). -/
def devs_7 : List Device := List.replicate 7 ⟨"forest.qvm", "Aspen-7-4Q-C"⟩

/-- The device pool `devs = devs_4 + devs_7` (source line 113). -/
def devs : List Device := devs_4 ++ devs_7

/-- The keyword arguments passed to `qchem.generate_hamiltonian`
(source lines 69-77). -/
structure GenArgs where
  mol_name : String
  mol_geo_file : String
  mol_charge : ℤ
  multiplicity : ℕ
  basis_set : String
  n_active_electrons : ℕ
  n_active_orbitals : ℕ
  deriving DecidableEq

/-- Python `str` of the one-decimal separation keys of `data`, used for the
`mol_name` argument (source line 70: `mol_name=str(separation)`). -/
def strSep (q : ℚ) : String :=
  let n := (q.num * 10 / (q.den : ℤ)).toNat
  toString (n / 10) ++ "." ++ toString (n % 10)

/-- The `generate_hamiltonian` call made for one `data` entry
(source lines 69-77). -/
def genArgsFor (p : ℚ × String) : GenArgs :=
  { mol_name := strSep p.1
  , mol_geo_file := p.2
  , mol_charge := 0
  , multiplicity := 1
  , basis_set := "sto-3g"
  , n_active_electrons := 2
  , n_active_orbitals := 2 }

/-- The `hamiltonians` list comprehension (source lines 68-79): one
Hamiltonian per `data` entry, in insertion order.  `gen` stands for the
external `qchem.generate_hamiltonian` (first component of its result). -/
def hamiltonians {Ham : Type} (gen : GenArgs → Ham) : List Ham :=
  data.map (fun p => gen (genArgsFor p))

/-- A `qml.VQECost` object (source line 142): it binds the ansatz circuit,
one Hamiltonian and the device pool. -/
structure VQECost (Ham : Type) where
  ansatz : ℚ → List Gate
  hamiltonian : Ham
  devices : List Device

/-- The `energies` list (source line 142): one `VQECost` per Hamiltonian,
all bound to the same device pool `devs`. -/
def energies {Ham : Type} (gen : GenArgs → Ham) : List (VQECost Ham) :=
  (hamiltonians gen).map (fun h => ⟨circuit, h, devs⟩)

/-- The path passed to `np.load` (source line 137). -/
def params_file : String := "vqe_parallel/RY_params.npy"

/-- The module-level bindings of the script that `calculate_surface` reads. -/
structure ModuleState (Ham : Type) where
  data : List (ℚ × String)
  hamiltonians : List Ham
  devs : List Device
  params : ℕ → ℚ
  energies : List (VQECost Ham)

/-- The module state right after the top-level statements of lines 52-142:
`data`, `hamiltonians`, `devs`, `params` (the array loaded from
`RY_params.npy`, modelled as an oracle), and `energies`. -/
def moduleState {Ham : Type} (gen : GenArgs → Ham) (params : ℕ → ℚ) :
    ModuleState Ham :=
  { data := data
  , hamiltonians := hamiltonians gen
  , devs := devs
  , params := params
  , energies := energies gen }

/-- Console events emitted by `calculate_surface`: the per-iteration
progress line (source line 162) and the timing line (source line 167). -/
inductive Out where
  | running (sep : ℚ)
  | evalTime (t : ℚ)
  deriving DecidableEq

/-- The value of one call to `calculate_surface`: the module state after the
call, the returned list `s`, the returned elapsed time `t1 - t0`, and the
console output produced. -/
structure SurfaceResult (Ham : Type) where
  state : ModuleState Ham
  surface : List ℚ
  elapsed : ℚ
  output : List Out

/-- `calculate_surface` (source lines 157-168).  `evalQNC` stands for the
external evaluation of the `QNodeCollection` behind a `VQECost`: the call
`e(params[i], parallel=parallel)` becomes `evalQNC e (params i) parallel`.
The two `time.time()` readings are the explicit arguments `t0` and `t1`.
The loop body only appends to the local list `s` and prints, so the module
state is returned unchanged.  The progress line indexes
`list(data.keys())[i]`, total in Python because `energies` and `data` have
the same length; it is modelled with `List.getD`. -/
def calculate_surface {Ham : Type} (evalQNC : VQECost Ham → ℚ → Bool → ℚ)
    (parallel : Bool) (t0 t1 : ℚ) (st : ModuleState Ham) : SurfaceResult Ham :=
  { state := st
  , surface := st.energies.enum.map (fun p => evalQNC p.2 (st.params p.1) parallel)
  , elapsed := t1 - t0
  , output :=
      (st.energies.enum.map (fun p => Out.running ((st.data.map Prod.fst).getD p.1 0)))
        ++ [Out.evalTime (t1 - t0)] }

/-- `plt.plot(surface, ...)` (source line 185): with a single data argument,
matplotlib plots the values against their indices `0, 1, ...`. -/
def pltPlot (ys : List ℚ) : List (ℚ × ℚ) :=
  ys.enum.map (fun p => ((p.1 : ℚ), p.2))

/-- The observable outcome of the whole script run (source lines 171-189):
the trace of `calculate_surface` calls with their results, the final values
of the variables `surface`, `t_seq` and `t_par`, and the points plotted. -/
structure ScriptRun where
  runs : List (Bool × List ℚ × ℚ)
  surface : List ℚ
  t_seq : ℚ
  t_par : ℚ
  plotted : List (ℚ × ℚ)

/-- The top-level statements of lines 171-189: `surface, t_seq =
calculate_surface(parallel=False)`, then `surface, t_par =
calculate_surface(parallel=True)` (rebinding `surface`), then
`plt.plot(surface, ...)`.  `t0 t1` and `t2 t3` are the clock readings of
the two calls. -/
def script {Ham : Type} (gen : GenArgs → Ham) (params : ℕ → ℚ)
    (evalQNC : VQECost Ham → ℚ → Bool → ℚ) (t0 t1 t2 t3 : ℚ) : ScriptRun :=
  let st := moduleState gen params
  let r1 := calculate_surface evalQNC false t0 t1 st
  let r2 := calculate_surface evalQNC true t2 t3 r1.state
  { runs := [(false, r1.surface, r1.elapsed), (true, r2.surface, r2.elapsed)]
  , surface := r2.surface
  , t_seq := r1.elapsed
  , t_par := r2.elapsed
  , plotted := pltPlot r2.surface }

/-- Modelled from the spec: the fixed naming convention for geometry files,
"the separation value rendered with exactly two decimal places".  This is
the spec-side rendering, to be compared with the literal paths of `data`. -/
def fmt2 (q : ℚ) : String :=
  let n := (q.num * 100 / (q.den : ℤ)).toNat
  toString (n / 100) ++ "." ++ (if n % 100 < 10 then "0" else "") ++ toString (n % 100)

/-- Whether an `Except` value is an error. -/
def isErr {α : Type} : Except String α → Bool
  | Except.error _ => true
  | Except.ok _ => false

/-- The loop of `calculate_surface` (source lines 161-163) instrumented for
Python exception semantics: each call `e(params[i], parallel=parallel)` may
raise (modelled by `Except`), and since the loop installs no handler, the
first error aborts the whole loop; `s.append` only happens on success. -/
def surfaceLoop {Ham : Type} (evalE : VQECost Ham → ℚ → Bool → Except String ℚ)
    (parallel : Bool) (params : ℕ → ℚ) :
    List (ℕ × VQECost Ham) → Except String (List ℚ)
  | [] => Except.ok []
  | p :: rest =>
    match evalE p.2 (params p.1) parallel with
    | Except.error msg => Except.error msg
    | Except.ok v =>
      match surfaceLoop evalE parallel params rest with
      | Except.error msg => Except.error msg
      | Except.ok s => Except.ok (v :: s)

/-- `calculate_surface` (source lines 157-168) under Python exception
semantics: the function body contains no `try`/`except`, so an exception in
any evaluation propagates and the `return s, t1 - t0` on line 168 is never
reached; no partial list escapes. -/
def calculate_surfaceE {Ham : Type}
    (evalE : VQECost Ham → ℚ → Bool → Except String ℚ) (parallel : Bool)
    (t0 t1 : ℚ) (st : ModuleState Ham) : Except String (List ℚ × ℚ) :=
  match surfaceLoop evalE parallel st.params st.energies.enum with
  | Except.error msg => Except.error msg
  | Except.ok s => Except.ok (s, t1 - t0)

/-- A trivial Hamiltonian generator, used to instantiate the abstract
external services on concrete inputs. -/
def unitGen : GenArgs → Unit := fun _ => ()

/-- A trivial rotation-parameter table. -/
def zeroParams : ℕ → ℚ := fun _ => 0

/-- A trivial flag-independent evaluation oracle. -/
def zeroEval : VQECost Unit → ℚ → Bool → ℚ := fun _ _ _ => 0

/-- An evaluation oracle that always raises. -/
def errEval : VQECost Unit → ℚ → Bool → Except String ℚ :=
  fun _ _ _ => Except.error "device unavailable"

/-- The concrete module state under the trivial external services. -/
def stUnit : ModuleState Unit := moduleState unitGen zeroParams

/-- C1: for identical inputs (the same module state, i.e. the same
Hamiltonians, device pool and rotation parameters), the list of expectation
values returned by `calculate_surface` with `parallel := true` equals,
element by element, the list returned with `parallel := false`.  The
evaluation of a `QNodeCollection` is performed by the external library; the
hypothesis `hflag` records the spec's description of it as a side-effect-free
computation whose value does not depend on the dispatch flag. -/
theorem c1_parallel_matches_sequential {Ham : Type}
    (evalQNC : VQECost Ham → ℚ → Bool → ℚ)
    (hflag : ∀ e p, evalQNC e p true = evalQNC e p false)
    (t0 t1 t2 t3 : ℚ) (st : ModuleState Ham) :
    (calculate_surface evalQNC true t2 t3 st).surface
      = (calculate_surface evalQNC false t0 t1 st).surface := by
  simp only [calculate_surface, hflag]

/-- Witness for C1 at a concrete flag-independent oracle. -/
theorem c1_parallel_matches_sequential_witness :
    (calculate_surface zeroEval true 2 3 stUnit).surface
      = (calculate_surface zeroEval false 0 1 stUnit).surface :=
  c1_parallel_matches_sequential zeroEval (fun _ _ => rfl) 0 1 2 3 stUnit

/-- C3 (code bug): `plt.plot(surface, ...)` on source line 185 passes only
the y-values, so matplotlib plots them against the indices `0..9`; the
x-coordinates of the plotted points are not the atomic separations
`0.3, ..., 2.1` even though the x-axis is labelled "Atomic separation (Å)".
Evaluated here on a concrete run of the script. -/
theorem c3_plot_x_is_index :
    (script unitGen zeroParams zeroEval 0 0 0 0).plotted.map Prod.fst
        = [0, 1, 2, 3, 4, 5, 6, 7, 8, 9]
      ∧ data.map Prod.fst
        = [3/10, 5/10, 7/10, 9/10, 11/10, 13/10, 15/10, 17/10, 19/10, 21/10]
      ∧ (script unitGen zeroParams zeroEval 0 0 0 0).plotted.map Prod.fst
        ≠ data.map Prod.fst := by
  have h1 : (script unitGen zeroParams zeroEval 0 0 0 0).plotted.map Prod.fst
      = [0, 1, 2, 3, 4, 5, 6, 7, 8, 9] := rfl
  have h2 : data.map Prod.fst
      = [3/10, 5/10, 7/10, 9/10, 11/10, 13/10, 15/10, 17/10, 19/10, 21/10] := by
    norm_num [data, Rat.mkRat_eq_div]
  refine ⟨h1, h2, ?_⟩
  rw [h1, h2]
  norm_num

/-- C4: each call to `calculate_surface` evaluates every one of the ten
energy functions exactly once, in list order (which is the order of the
`data` dictionary, of strictly increasing separation), the `i`-th
evaluation receiving `params i` as the single circuit parameter; and the
script runs the whole-surface evaluation exactly twice, first with
`parallel = False` and then with `parallel = True`. -/
theorem c4_evaluation_order {Ham : Type} (gen : GenArgs → Ham)
    (params : ℕ → ℚ) (evalQNC : VQECost Ham → ℚ → Bool → ℚ)
    (parallel : Bool) (t0 t1 t2 t3 : ℚ) :
    (calculate_surface evalQNC parallel t0 t1 (moduleState gen params)).surface
        = (energies gen).enum.map (fun p => evalQNC p.2 (params p.1) parallel)
      ∧ (energies gen).length = 10
      ∧ List.Chain' (fun a b : ℚ => a < b) (data.map Prod.fst)
      ∧ (script gen params evalQNC t0 t1 t2 t3).runs.map Prod.fst
        = [false, true] := by
  refine ⟨rfl, rfl, ?_, rfl⟩
  norm_num [data, List.chain'_cons, Rat.mkRat_eq_div]

/-- C5: the script builds exactly one Hamiltonian per separation value: the
`hamiltonians` list has one entry for each of the ten keys of `data`, in
the same order, and the Hamiltonians stored in the `energies` objects are
exactly the constructed ones, unmodified. -/
theorem c5_one_hamiltonian_per_separation {Ham : Type} (gen : GenArgs → Ham) :
    (hamiltonians gen).length = data.length
      ∧ data.length = 10
      ∧ (∀ i : ℕ, (hamiltonians gen)[i]?
          = (data[i]?).map (fun p => gen (genArgsFor p)))
      ∧ (energies gen).map VQECost.hamiltonian = hamiltonians gen := by
  refine ⟨by simp [hamiltonians], rfl, fun i => ?_, rfl⟩
  simp [hamiltonians, List.getElem?_map]

/-- C6: the device pool is fixed: exactly 15 devices, 8 instances of
`Aspen-4-4Q-E` and 7 of `Aspen-7-4Q-C`, created once as `devs_4 ++ devs_7`
before any evaluation, and the very same pool is bound to every one of the
ten energy functions. -/
theorem c6_device_pool {Ham : Type} (gen : GenArgs → Ham) :
    devs.length = 15
      ∧ devs.count ⟨"forest.qvm", "Aspen-4-4Q-E"⟩ = 8
      ∧ devs.count ⟨"forest.qvm", "Aspen-7-4Q-C"⟩ = 7
      ∧ devs = devs_4 ++ devs_7
      ∧ (energies gen).map VQECost.devices = List.replicate 10 devs := by
  refine ⟨rfl, by decide, by decide, rfl, rfl⟩

/-- C7: every geometry file path of `data` is "vqe_parallel/h2_" followed
by the separation rendered with exactly two decimal places and ".xyz", and
the rotation parameters are loaded from the single relative path
"vqe_parallel/RY_params.npy". -/
theorem c7_file_naming :
    (data.all fun p => p.2 == "vqe_parallel/h2_" ++ fmt2 p.1 ++ ".xyz") = true
      ∧ params_file = "vqe_parallel/RY_params.npy" :=
  ⟨by decide, rfl⟩

/-- C8: `calculate_surface` installs no exception handler: the call fails
(the exception propagates out of it) exactly when some evaluation in its
loop fails, and in particular it never returns a result list when any of
the evaluations raises. -/
theorem c8_no_partial_results {Ham : Type}
    (evalE : VQECost Ham → ℚ → Bool → Except String ℚ) (parallel : Bool)
    (t0 t1 : ℚ) (st : ModuleState Ham) :
    isErr (calculate_surfaceE evalE parallel t0 t1 st)
      = st.energies.enum.any
          (fun p => isErr (evalE p.2 (st.params p.1) parallel)) := by
  have key : ∀ l : List (ℕ × VQECost Ham),
      isErr (surfaceLoop evalE parallel st.params l)
        = l.any (fun p => isErr (evalE p.2 (st.params p.1) parallel)) := by
    intro l
    induction l with
    | nil => rfl
    | cons p rest ih =>
      simp only [surfaceLoop, List.any_cons, ← ih]
      cases h : evalE p.2 (st.params p.1) parallel with
      | error msg => rfl
      | ok v =>
        cases hr : surfaceLoop evalE parallel st.params rest with
        | error msg => rfl
        | ok s => rfl
  unfold calculate_surfaceE
  rw [← key]
  cases h : surfaceLoop evalE parallel st.params st.energies.enum with
  | error msg => rfl
  | ok s => rfl

/-- C9: the energies handed to the final plot come exclusively from the
second, `parallel = True`, run: the rebinding of `surface` discards the
sequential run's values, of which only the timing `t_seq` is kept. -/
theorem c9_plot_from_parallel_run {Ham : Type} (gen : GenArgs → Ham)
    (params : ℕ → ℚ) (evalQNC : VQECost Ham → ℚ → Bool → ℚ)
    (t0 t1 t2 t3 : ℚ) :
    (script gen params evalQNC t0 t1 t2 t3).surface
        = (calculate_surface evalQNC true t2 t3 (moduleState gen params)).surface
      ∧ (script gen params evalQNC t0 t1 t2 t3).plotted
        = pltPlot ((calculate_surface evalQNC true t2 t3 (moduleState gen params)).surface)
      ∧ (script gen params evalQNC t0 t1 t2 t3).t_seq
        = (calculate_surface evalQNC false t0 t1 (moduleState gen params)).elapsed
      ∧ (script gen params evalQNC t0 t1 t2 t3).t_par
        = (calculate_surface evalQNC true t2 t3 (moduleState gen params)).elapsed :=
  ⟨rfl, rfl, rfl, rfl⟩

/-- C10: for either value of the flag, `calculate_surface` returns the
module state unchanged; its only products are its console output and the
returned pair of result list and elapsed time, the latter nonnegative
whenever the clock does not run backwards. -/
theorem c10_frame {Ham : Type} (evalQNC : VQECost Ham → ℚ → Bool → ℚ)
    (parallel : Bool) (t0 t1 : ℚ) (st : ModuleState Ham) (h : t0 ≤ t1) :
    (calculate_surface evalQNC parallel t0 t1 st).state = st
      ∧ 0 ≤ (calculate_surface evalQNC parallel t0 t1 st).elapsed
      ∧ (calculate_surface evalQNC parallel t0 t1 st).elapsed = t1 - t0
      ∧ (calculate_surface evalQNC parallel t0 t1 st).output
        = (st.energies.enum.map
            (fun p => Out.running ((st.data.map Prod.fst).getD p.1 0)))
          ++ [Out.evalTime (t1 - t0)]
      ∧ (calculate_surface evalQNC parallel t0 t1 st).surface
        = st.energies.enum.map (fun p => evalQNC p.2 (st.params p.1) parallel) :=
  ⟨rfl, sub_nonneg.mpr h, rfl, rfl, rfl⟩

/-- Witness for C10 at concrete clock readings 0 and 1. -/
theorem c10_frame_witness :
    (0:ℚ) ≤ 1
      ∧ ((calculate_surface zeroEval false 0 1 stUnit).state = stUnit
      ∧ 0 ≤ (calculate_surface zeroEval false 0 1 stUnit).elapsed
      ∧ (calculate_surface zeroEval false 0 1 stUnit).elapsed = 1 - 0
      ∧ (calculate_surface zeroEval false 0 1 stUnit).output
        = (stUnit.energies.enum.map
            (fun p => Out.running ((stUnit.data.map Prod.fst).getD p.1 0)))
          ++ [Out.evalTime (1 - 0)]
      ∧ (calculate_surface zeroEval false 0 1 stUnit).surface
        = stUnit.energies.enum.map
            (fun p => zeroEval p.2 (stUnit.params p.1) false)) :=
  ⟨zero_le_one, c10_frame zeroEval false 0 1 stUnit zero_le_one⟩

end VQEParallel
